import Mathlib

/-!
Shallow embedding of the crawl-scheduling and checkpointed-storage pipeline
of `src/main.js` (an Apify act crawling subscene.com).

The embedding models:
* the global flush state (`state`, `finishedPages`, `isStoring`,
  `storePagesInterval`) together with the key-value store contents;
* `maybeStoreData(force)` as a pure function of that state and of an
  environment describing the outcomes of the two `Apify.setValue` calls and
  the records appended concurrently while each call was awaited;
* `workerFunc(url)` as a pure function of an environment describing the
  outcome of the browse / link-extraction / subtitle-download steps;
* the main dispatch logic (resume skip, queue population, input defaults).
-/

namespace SubsceneCrawler

/-- Character-list version of a prefix test, used to model JavaScript
`String.prototype.indexOf` returning a non-negative index. -/
def charsStartWith : List Char → List Char → Bool
  | [], _ => true
  | _ :: _, [] => false
  | p :: ps, c :: cs => (p == c) && charsStartWith ps cs

/-- `charsContain pat s` holds when `pat` occurs contiguously in `s`. -/
def charsContain : List Char → List Char → Bool
  | pat, [] => charsStartWith pat []
  | pat, c :: cs => charsStartWith pat (c :: cs) || charsContain pat cs

/-- `strContains s pat` models `s.indexOf(pat) >= 0` from `main.js` line 100. -/
def strContains (s pat : String) : Bool :=
  charsContain pat.toList s.toList

/-- The substring the `catch` block of `maybeStoreData` tests for to detect a
storage-capacity error (`main.js` line 100). -/
def capacityErrorMsg : String := "The POST payload is too large"

/-- Model of the `left-pad` npm package: pad `s` on the left with `c` up to
width `w` (returns `s` unchanged when already at least that wide). -/
def leftPad (s : String) (w : Nat) (c : Char) : String :=
  if w ≤ s.length then s else String.mk (List.replicate (w - s.length) c) ++ s

/-- Batch key computation from `main.js` line 85:
`PAGES-${leftPad(state.storeCount+1, 9, '0')}`. -/
def pagesKey (n : Nat) : String := "PAGES-" ++ leftPad (toString n) 9 '0'

/-- The persisted crawl state (`STATE` key): `storeCount` counts batches
written, `pageCount` counts records durably flushed. -/
structure CrawlState where
  storeCount : Nat
  pageCount : Nat
deriving Repr, DecidableEq

/-- `DEFAULT_STATE` from `main.js` lines 26-29. -/
def DEFAULT_STATE : CrawlState := { storeCount := 0, pageCount := 0 }

/-- A page record as built by `workerFunc`.  Timestamps and the
user-agent / proxy fields are irrelevant to every claim and omitted. -/
structure PageRecord where
  url : String
  loadedUrl : Option String := none
  errorInfo : Option String := none
  subtitleName : Option String := none
  subtitle : Option String := none
deriving Repr, DecidableEq

/-- Outcome of one `Apify.setValue` call. -/
inductive WriteResult where
  | ok
  | err (msg : String)
deriving Repr, DecidableEq

/-- Environment of one `maybeStoreData` invocation: outcome of the batch
write and of the `STATE` write, plus the records pushed onto
`finishedPages` by other workers while each write was being awaited. -/
structure FlushEnv where
  batchWrite : WriteResult
  appendedDuringBatchWrite : List PageRecord
  stateWrite : WriteResult
  appendedDuringStateWrite : List PageRecord
deriving Repr, DecidableEq

/-- How one `maybeStoreData` invocation ends. `noWrite` covers the three
early `return`s; `exited c` is `process.exit(c)`; `thrown` is the
`if (force) throw e` re-raise; `swallowed` is the logged-and-ignored path. -/
inductive FlushOutcome where
  | noWrite
  | stored
  | exited (code : Nat)
  | thrown (msg : String)
  | swallowed (msg : String)
deriving Repr, DecidableEq

/-- The mutable globals of `main.js` relevant to flushing, together with the
key-value store contents: `batches` holds the values written under
`PAGES-...` keys, `storedState` the value under the `STATE` key. -/
structure MachineState where
  state : CrawlState
  finishedPages : List PageRecord
  isStoring : Bool
  storePagesInterval : Nat
  batches : List (String × List PageRecord)
  storedState : Option CrawlState
deriving Repr, DecidableEq

/-- Embedding of `maybeStoreData(force)` (`main.js` lines 70-110).
Returns the machine state after the call and the outcome.
The three leading guards mirror lines 72, 75 and 78; the snapshot, key
computation, batch write, splice, counter updates and `STATE` write mirror
lines 84-95; the `catch` mirrors lines 98-106 and the `finally`
(`isStoring = false`) runs on every path except `process.exit`. -/
def maybeStoreData (force : Bool) (env : FlushEnv) (ms : MachineState) :
    MachineState × FlushOutcome :=
  if ms.finishedPages.length = 0 then (ms, .noWrite)
  else if force = false ∧ ms.finishedPages.length < ms.storePagesInterval then (ms, .noWrite)
  else if ms.isStoring then (ms, .noWrite)
  else
    let msIn : MachineState := { ms with isStoring := true }
    let pagesToStore := msIn.finishedPages
    let key := pagesKey (msIn.state.storeCount + 1)
    match env.batchWrite with
    | .err msg =>
      let msErr := { msIn with
        finishedPages := msIn.finishedPages ++ env.appendedDuringBatchWrite }
      if strContains msg capacityErrorMsg then (msErr, .exited 1)
      else if force then ({ msErr with isStoring := false }, .thrown msg)
      else ({ msErr with isStoring := false }, .swallowed msg)
    | .ok =>
      let msWr := { msIn with
        batches := msIn.batches ++ [(key, pagesToStore)],
        finishedPages :=
          (msIn.finishedPages ++ env.appendedDuringBatchWrite).drop pagesToStore.length,
        state := { storeCount := msIn.state.storeCount + 1,
                   pageCount := msIn.state.pageCount + pagesToStore.length } }
      match env.stateWrite with
      | .ok =>
        ({ msWr with
            storedState := some msWr.state,
            finishedPages := msWr.finishedPages ++ env.appendedDuringStateWrite,
            isStoring := false }, .stored)
      | .err msg =>
        let msErr := { msWr with
          finishedPages := msWr.finishedPages ++ env.appendedDuringStateWrite }
        if strContains msg capacityErrorMsg then (msErr, .exited 1)
        else if force then ({ msErr with isStoring := false }, .thrown msg)
        else ({ msErr with isStoring := false }, .swallowed msg)

/-- In-memory counter invariant: `pageCount` is the total number of records
across all written batches and `storeCount` the number of batches. -/
def counterInv (ms : MachineState) : Prop :=
  ms.state.pageCount = (ms.batches.map (fun b => b.2.length)).sum ∧
  ms.state.storeCount = ms.batches.length

/-- The persisted `STATE` value, when present, always corresponds to a prefix
of the written batches: its `storeCount` never exceeds the number of batches
and its `pageCount` is exactly the number of records in the first
`storeCount` batches. -/
def storedInv (ms : MachineState) : Prop :=
  ∀ st, ms.storedState = some st →
    st.storeCount ≤ ms.batches.length ∧
    st.pageCount = ((ms.batches.take st.storeCount).map (fun b => b.2.length)).sum

/-- An event of the crawl: a worker pushing one finished record onto the
buffer, or one invocation of `maybeStoreData`. -/
inductive CrawlEvent where
  | append (r : PageRecord)
  | flush (force : Bool) (env : FlushEnv)

/-- Effect of one event on the machine state. -/
def stepEvent (ms : MachineState) (e : CrawlEvent) : MachineState :=
  match e with
  | .append r => { ms with finishedPages := ms.finishedPages ++ [r] }
  | .flush force env => (maybeStoreData force env ms).1

/-- Run a sequence of crawl events. -/
def runEvents (ms : MachineState) (es : List CrawlEvent) : MachineState :=
  es.foldl stepEvent ms

/-- Environment of one `workerFunc` invocation (`main.js` lines 133-232):
which step of the try-block failed, if any, and what the browse /
link-extraction / subtitle-download steps produced. -/
inductive WorkerEnv where
  /-- `Apify.browse`, cookie setup, sleep, `getCurrentUrl` or the
  link-extraction script threw before any link was pushed. -/
  | earlyFail (msg : String)
  /-- Links were extracted and pushed onto `urls`, then a later step
  (e.g. the subtitle-info script) threw. -/
  | linksThenFail (loadedUrl : Option String) (newURLs : List String) (msg : String)
  /-- Page loaded, links extracted, no `#downloadButton` on the page. -/
  | noSubtitle (loadedUrl : String) (newURLs : List String)
  /-- Subtitle info found but the subtitle download request failed. -/
  | subtitleFail (loadedUrl : String) (newURLs : List String) (msg : String)
  /-- Subtitle info found and the download succeeded with `body`. -/
  | subtitleOk (loadedUrl : String) (newURLs : List String)
      (title : String) (body : String)
deriving Repr, DecidableEq

/-- The links the environment would surface via the `getAllLinks` script. -/
def newURLsOf : WorkerEnv → List String
  | .earlyFail _ => []
  | .linksThenFail _ ls _ => ls
  | .noSubtitle _ ls => ls
  | .subtitleFail _ ls _ => ls
  | .subtitleOk _ ls _ _ => ls

/-- Whether the invocation reaches `finishedPages.push(page)`
(`main.js` line 217): only when subtitle info was found and downloaded. -/
def producesRecord : WorkerEnv → Bool
  | .subtitleOk _ _ _ _ => true
  | _ => false

/-- Result of one `workerFunc` invocation: the `urls` array (frontier) after
the call, the `finishedPages` buffer after the call, and the local `page`
object at the end of the call. -/
structure WorkerResult where
  urls : List String
  finishedPages : List PageRecord
  page : PageRecord
deriving Repr, DecidableEq

/-- Embedding of `workerFunc` (`main.js` lines 133-232), as a function of
the step outcomes.  Links are pushed onto `urls` (lines 200-202);
`finishedPages.push(page)` happens only inside the
`if ('title' in subtitleInfo)` branch after the download request succeeds
(line 217); the `catch` records the error on the local `page` object
(line 221) without pushing it anywhere. -/
def workerFunc (url : String) (env : WorkerEnv) (urls : List String)
    (finishedPages : List PageRecord) : WorkerResult :=
  let page : PageRecord := { url := url }
  match env with
  | .earlyFail msg =>
      ⟨urls, finishedPages, { page with errorInfo := some msg }⟩
  | .linksThenFail lu newURLs msg =>
      ⟨urls ++ newURLs, finishedPages,
        { page with loadedUrl := lu, errorInfo := some msg }⟩
  | .noSubtitle lu newURLs =>
      ⟨urls ++ newURLs, finishedPages, { page with loadedUrl := some lu }⟩
  | .subtitleFail lu newURLs msg =>
      ⟨urls ++ newURLs, finishedPages,
        { page with loadedUrl := some lu, errorInfo := some msg }⟩
  | .subtitleOk lu newURLs title body =>
      let done := { page with
        loadedUrl := some lu, subtitleName := some title, subtitle := some body }
      ⟨urls ++ newURLs, finishedPages ++ [done], done⟩

/-- One full worker turn: `workerFunc` followed by the unconditional
`await maybeStoreData()` at `main.js` line 231. -/
def workerStep (url : String) (wenv : WorkerEnv) (fenv : FlushEnv)
    (urls : List String) (ms : MachineState) :
    List String × MachineState × FlushOutcome :=
  let r := workerFunc url wenv urls ms.finishedPages
  let p := maybeStoreData false fenv { ms with finishedPages := r.finishedPages }
  (r.urls, p.1, p.2)

/-- The hard-coded seed URL (`main.js` line 11). -/
def SUBSCENE_START : String := "https://subscene.com/browse"

/-- `state = await Apify.getValue('STATE') || DEFAULT_STATE`
(`main.js` line 130). -/
def loadState (stored : Option CrawlState) : CrawlState :=
  stored.getD DEFAULT_STATE

/-- The URLs pushed onto the `async.queue` at startup (`main.js` lines
241-248): the seed list after `urls.splice(0, state.pageCount)` when
`state.pageCount > 0`. -/
def dispatchedUrls (urls : List String) (st : CrawlState) : List String :=
  if st.pageCount > 0 then urls.drop st.pageCount else urls

/-- Embedding of the queue-processing loop.  The queue contents are fixed
at startup: `q.push` is called only from the initial `urls.forEach`
(`main.js` lines 245-248), which completes before any worker runs, so
`workerFunc`'s pushes onto the `urls` array never reach the queue.
Returns the final frontier (`urls` array) and the list of URLs actually
processed by workers, in order (concurrency-1 interleaving). -/
def runQueue (envs : String → WorkerEnv) :
    List String → List String → List String × List String
  | frontier, [] => (frontier, [])
  | frontier, u :: rest =>
      let r := workerFunc u (envs u) frontier []
      let p := runQueue envs r.urls rest
      (p.1, u :: p.2)

/-- `const q = async.queue(workerFunc, input.concurrency > 0 ?
input.concurrency : 1)` (`main.js` line 238).  JavaScript evaluates
`undefined > 0` to `false`, so an absent field falls back to 1. -/
def effectiveConcurrency (c : Option Int) : Int :=
  match c with
  | some v => if 0 < v then v else 1
  | none => 1

/-- Initial value of the module-level `storePagesInterval` variable
(`main.js` line 66). -/
def initialStorePagesInterval : Int := 50

/-- `if (input.storePagesInterval > 0) storePagesInterval =
input.storePagesInterval` (`main.js` line 127), applied to the initial
value 50.  An absent or non-positive field leaves the initial value. -/
def effectiveStorePagesInterval (c : Option Int) : Int :=
  match c with
  | some v => if 0 < v then v else initialStorePagesInterval
  | none => initialStorePagesInterval

/-! ### Helper lemmas about `maybeStoreData` -/

theorem maybeStoreData_of_isStoring (force : Bool) (env : FlushEnv)
    (ms : MachineState) (h : ms.isStoring = true) :
    maybeStoreData force env ms = (ms, .noWrite) := by
  unfold maybeStoreData
  split_ifs with h1 h2 <;> rfl

theorem maybeStoreData_success (force : Bool) (env : FlushEnv) (ms : MachineState)
    (hne : ms.finishedPages.length ≠ 0)
    (hth : force = true ∨ ms.storePagesInterval ≤ ms.finishedPages.length)
    (hg : ms.isStoring = false)
    (hbw : env.batchWrite = .ok) (hsw : env.stateWrite = .ok) :
    maybeStoreData force env ms =
      ({ state := { storeCount := ms.state.storeCount + 1,
                    pageCount := ms.state.pageCount + ms.finishedPages.length },
         finishedPages := env.appendedDuringBatchWrite ++ env.appendedDuringStateWrite,
         isStoring := false,
         storePagesInterval := ms.storePagesInterval,
         batches := ms.batches ++ [(pagesKey (ms.state.storeCount + 1), ms.finishedPages)],
         storedState := some { storeCount := ms.state.storeCount + 1,
                               pageCount := ms.state.pageCount + ms.finishedPages.length } },
       .stored) := by
  have h2 : ¬(force = false ∧ ms.finishedPages.length < ms.storePagesInterval) := by
    rcases hth with h | h
    · simp [h]
    · exact fun hc => absurd hc.2 (not_lt.mpr h)
  have h3 : ¬(ms.isStoring = true) := by simp [hg]
  simp only [maybeStoreData, if_neg hne, if_neg h2, if_neg h3, hbw, hsw]
  simp [List.drop_left]

theorem maybeStoreData_batchErr (force : Bool) (env : FlushEnv) (ms : MachineState)
    (msg : String)
    (hne : ms.finishedPages.length ≠ 0)
    (hth : force = true ∨ ms.storePagesInterval ≤ ms.finishedPages.length)
    (hg : ms.isStoring = false)
    (hbw : env.batchWrite = .err msg)
    (hcap : strContains msg capacityErrorMsg = false) :
    maybeStoreData force env ms =
      ({ ms with
          finishedPages := ms.finishedPages ++ env.appendedDuringBatchWrite,
          isStoring := false },
       if force then .thrown msg else .swallowed msg) := by
  have h2 : ¬(force = false ∧ ms.finishedPages.length < ms.storePagesInterval) := by
    rcases hth with h | h
    · simp [h]
    · exact fun hc => absurd hc.2 (not_lt.mpr h)
  have h3 : ¬(ms.isStoring = true) := by simp [hg]
  simp only [maybeStoreData, if_neg hne, if_neg h2, if_neg h3, hbw]
  simp only [hcap, Bool.false_eq_true, if_false]
  cases force <;> simp

theorem maybeStoreData_stateErr (force : Bool) (env : FlushEnv) (ms : MachineState)
    (msg : String)
    (hne : ms.finishedPages.length ≠ 0)
    (hth : force = true ∨ ms.storePagesInterval ≤ ms.finishedPages.length)
    (hg : ms.isStoring = false)
    (hbw : env.batchWrite = .ok)
    (hsw : env.stateWrite = .err msg)
    (hcap : strContains msg capacityErrorMsg = false) :
    maybeStoreData force env ms =
      ({ state := { storeCount := ms.state.storeCount + 1,
                    pageCount := ms.state.pageCount + ms.finishedPages.length },
         finishedPages := env.appendedDuringBatchWrite ++ env.appendedDuringStateWrite,
         isStoring := false,
         storePagesInterval := ms.storePagesInterval,
         batches := ms.batches ++ [(pagesKey (ms.state.storeCount + 1), ms.finishedPages)],
         storedState := ms.storedState },
       if force then .thrown msg else .swallowed msg) := by
  have h2 : ¬(force = false ∧ ms.finishedPages.length < ms.storePagesInterval) := by
    rcases hth with h | h
    · simp [h]
    · exact fun hc => absurd hc.2 (not_lt.mpr h)
  have h3 : ¬(ms.isStoring = true) := by simp [hg]
  simp only [maybeStoreData, if_neg hne, if_neg h2, if_neg h3, hbw, hsw]
  simp only [hcap, Bool.false_eq_true, if_false]
  cases force <;> simp [List.drop_left]

theorem maybeStoreData_batchCap (force : Bool) (env : FlushEnv) (ms : MachineState)
    (msg : String)
    (hne : ms.finishedPages.length ≠ 0)
    (hth : force = true ∨ ms.storePagesInterval ≤ ms.finishedPages.length)
    (hg : ms.isStoring = false)
    (hbw : env.batchWrite = .err msg)
    (hcap : strContains msg capacityErrorMsg = true) :
    maybeStoreData force env ms =
      ({ ms with
          finishedPages := ms.finishedPages ++ env.appendedDuringBatchWrite,
          isStoring := true },
       .exited 1) := by
  have h2 : ¬(force = false ∧ ms.finishedPages.length < ms.storePagesInterval) := by
    rcases hth with h | h
    · simp [h]
    · exact fun hc => absurd hc.2 (not_lt.mpr h)
  have h3 : ¬(ms.isStoring = true) := by simp [hg]
  simp only [maybeStoreData, if_neg hne, if_neg h2, if_neg h3, hbw]
  simp [hcap]

theorem maybeStoreData_stateCap (force : Bool) (env : FlushEnv) (ms : MachineState)
    (msg : String)
    (hne : ms.finishedPages.length ≠ 0)
    (hth : force = true ∨ ms.storePagesInterval ≤ ms.finishedPages.length)
    (hg : ms.isStoring = false)
    (hbw : env.batchWrite = .ok)
    (hsw : env.stateWrite = .err msg)
    (hcap : strContains msg capacityErrorMsg = true) :
    maybeStoreData force env ms =
      ({ state := { storeCount := ms.state.storeCount + 1,
                    pageCount := ms.state.pageCount + ms.finishedPages.length },
         finishedPages := env.appendedDuringBatchWrite ++ env.appendedDuringStateWrite,
         isStoring := true,
         storePagesInterval := ms.storePagesInterval,
         batches := ms.batches ++ [(pagesKey (ms.state.storeCount + 1), ms.finishedPages)],
         storedState := ms.storedState },
       .exited 1) := by
  have h2 : ¬(force = false ∧ ms.finishedPages.length < ms.storePagesInterval) := by
    rcases hth with h | h
    · simp [h]
    · exact fun hc => absurd hc.2 (not_lt.mpr h)
  have h3 : ¬(ms.isStoring = true) := by simp [hg]
  simp only [maybeStoreData, if_neg hne, if_neg h2, if_neg h3, hbw, hsw]
  simp [hcap, List.drop_left]

theorem maybeStoreData_guard (force : Bool) (env : FlushEnv) (ms : MachineState)
    (h : ms.finishedPages.length = 0 ∨
         (force = false ∧ ms.finishedPages.length < ms.storePagesInterval) ∨
         ms.isStoring = true) :
    maybeStoreData force env ms = (ms, .noWrite) := by
  rcases h with h | h | h
  · unfold maybeStoreData
    rw [if_pos h]
  · by_cases h0 : ms.finishedPages.length = 0
    · unfold maybeStoreData
      rw [if_pos h0]
    · unfold maybeStoreData
      rw [if_neg h0, if_pos h]
  · exact maybeStoreData_of_isStoring force env ms h

/-- Every invocation of `maybeStoreData` falls into exactly one of three
shapes: a guard-tripped no-op; a batch-write failure that leaves counters,
batches and stored state untouched and only extends the buffer with the
concurrently appended records; or a performed batch write that appends one
batch, removes the snapshot prefix, and bumps both counters. -/
theorem maybeStoreData_total_cases (force : Bool) (env : FlushEnv) (ms : MachineState) :
    maybeStoreData force env ms = (ms, .noWrite) ∨
    (∃ b o, maybeStoreData force env ms =
      ({ ms with
          finishedPages := ms.finishedPages ++ env.appendedDuringBatchWrite,
          isStoring := b }, o) ∧
      (b = true → o = .exited 1)) ∨
    (∃ b st o, maybeStoreData force env ms =
      ({ state := { storeCount := ms.state.storeCount + 1,
                    pageCount := ms.state.pageCount + ms.finishedPages.length },
         finishedPages := env.appendedDuringBatchWrite ++ env.appendedDuringStateWrite,
         isStoring := b,
         storePagesInterval := ms.storePagesInterval,
         batches := ms.batches ++ [(pagesKey (ms.state.storeCount + 1), ms.finishedPages)],
         storedState := st }, o) ∧
      (b = true → o = .exited 1) ∧
      (st = ms.storedState ∨
       st = some { storeCount := ms.state.storeCount + 1,
                   pageCount := ms.state.pageCount + ms.finishedPages.length })) := by
  by_cases hg : ms.finishedPages.length = 0 ∨
      (force = false ∧ ms.finishedPages.length < ms.storePagesInterval) ∨
      ms.isStoring = true
  · exact Or.inl (maybeStoreData_guard force env ms hg)
  · have hne : ms.finishedPages.length ≠ 0 := fun hc => hg (Or.inl hc)
    have hth : force = true ∨ ms.storePagesInterval ≤ ms.finishedPages.length := by
      by_cases hf : force = true
      · exact Or.inl hf
      · right
        by_contra hlt
        exact hg (Or.inr (Or.inl ⟨by simpa using hf, not_le.mp hlt⟩))
    have hst : ms.isStoring = false := by
      by_contra hc
      exact hg (Or.inr (Or.inr (by simpa using hc)))
    cases hbw : env.batchWrite with
    | err msg =>
      by_cases hcap : strContains msg capacityErrorMsg = true
      · exact Or.inr (Or.inl ⟨true, .exited 1,
          maybeStoreData_batchCap force env ms msg hne hth hst hbw hcap,
          fun _ => rfl⟩)
      · exact Or.inr (Or.inl ⟨false, if force then .thrown msg else .swallowed msg,
          maybeStoreData_batchErr force env ms msg hne hth hst hbw
            (by simpa using hcap),
          fun hb => absurd hb (by simp)⟩)
    | ok =>
      cases hsw : env.stateWrite with
      | ok =>
        exact Or.inr (Or.inr ⟨false, _, .stored,
          maybeStoreData_success force env ms hne hth hst hbw hsw,
          fun hb => absurd hb (by simp), Or.inr rfl⟩)
      | err msg =>
        by_cases hcap : strContains msg capacityErrorMsg = true
        · exact Or.inr (Or.inr ⟨true, ms.storedState, .exited 1,
            maybeStoreData_stateCap force env ms msg hne hth hst hbw hsw hcap,
            fun _ => rfl, Or.inl rfl⟩)
        · exact Or.inr (Or.inr ⟨false, ms.storedState,
            if force then .thrown msg else .swallowed msg,
            maybeStoreData_stateErr force env ms msg hne hth hst hbw hsw
              (by simpa using hcap), fun hb => absurd hb (by simp), Or.inl rfl⟩)

theorem counterInv_maybeStoreData (force : Bool) (env : FlushEnv) (ms : MachineState)
    (h : counterInv ms) : counterInv (maybeStoreData force env ms).1 := by
  rcases maybeStoreData_total_cases force env ms with heq | ⟨b, o, heq, -⟩ | ⟨b, st, o, heq, -, -⟩ <;>
    rw [heq] <;> simp_all [counterInv]

theorem storedInv_maybeStoreData (force : Bool) (env : FlushEnv) (ms : MachineState)
    (hc : counterInv ms) (hs : storedInv ms) :
    storedInv (maybeStoreData force env ms).1 := by
  rcases maybeStoreData_total_cases force env ms with heq | ⟨b, o, heq, -⟩ | ⟨b, st, o, heq, -, hstv⟩ <;>
    rw [heq]
  · exact hs
  · intro st2 hmem
    simpa using hs st2 (by simpa using hmem)
  · intro st2 hmem
    simp only at hmem ⊢
    rcases hstv with rfl | rfl
    · rcases hs st2 hmem with ⟨hle, hsum⟩
      constructor
      · simp only [List.length_append, List.length_cons, List.length_nil]
        omega
      · rw [List.take_append_of_le_length hle]
        exact hsum
    · obtain rfl := Option.some.inj hmem
      constructor
      · simp [hc.2]
      · rw [List.take_of_length_le (by simp [hc.2])]
        simp [hc.1]

theorem maybeStoreData_mono (force : Bool) (env : FlushEnv) (ms : MachineState) :
    ms.state.pageCount ≤ (maybeStoreData force env ms).1.state.pageCount ∧
    ms.state.storeCount ≤ (maybeStoreData force env ms).1.state.storeCount := by
  rcases maybeStoreData_total_cases force env ms with heq | ⟨b, o, heq, -⟩ | ⟨b, st, o, heq, -, -⟩ <;>
    rw [heq] <;> simp

theorem inv_runEvents (es : List CrawlEvent) (ms : MachineState)
    (h : counterInv ms ∧ storedInv ms) :
    counterInv (runEvents ms es) ∧ storedInv (runEvents ms es) := by
  induction es generalizing ms with
  | nil => exact h
  | cons e rest ih =>
    have hstep : counterInv (stepEvent ms e) ∧ storedInv (stepEvent ms e) := by
      cases e with
      | append r =>
        refine ⟨?_, ?_⟩
        · simpa [stepEvent, counterInv] using h.1
        · intro st hmem
          exact h.2 st (by simpa [stepEvent] using hmem)
      | flush force env =>
        exact ⟨counterInv_maybeStoreData force env ms h.1,
               storedInv_maybeStoreData force env ms h.1 h.2⟩
    simpa [runEvents, List.foldl_cons] using ih (stepEvent ms e) hstep

theorem maybeStoreData_noWrite_iff (force : Bool) (env : FlushEnv) (ms : MachineState) :
    (maybeStoreData force env ms).2 = .noWrite ↔
      (ms.finishedPages.length = 0 ∨
       (force = false ∧ ms.finishedPages.length < ms.storePagesInterval) ∨
       ms.isStoring = true) := by
  by_cases hg : ms.finishedPages.length = 0 ∨
      (force = false ∧ ms.finishedPages.length < ms.storePagesInterval) ∨
      ms.isStoring = true
  · rw [maybeStoreData_guard force env ms hg]
    simpa using hg
  · have hne : ms.finishedPages.length ≠ 0 := fun hc => hg (Or.inl hc)
    have hth : force = true ∨ ms.storePagesInterval ≤ ms.finishedPages.length := by
      by_cases hf : force = true
      · exact Or.inl hf
      · right
        by_contra hlt
        exact hg (Or.inr (Or.inl ⟨by simpa using hf, not_le.mp hlt⟩))
    have hst : ms.isStoring = false := by
      by_contra hc
      exact hg (Or.inr (Or.inr (by simpa using hc)))
    have hout : (maybeStoreData force env ms).2 ≠ .noWrite := by
      cases hbw : env.batchWrite with
      | err msg =>
        by_cases hcap : strContains msg capacityErrorMsg = true
        · rw [maybeStoreData_batchCap force env ms msg hne hth hst hbw hcap]
          simp
        · rw [maybeStoreData_batchErr force env ms msg hne hth hst hbw
            (by simpa using hcap)]
          cases force <;> simp
      | ok =>
        cases hsw : env.stateWrite with
        | ok =>
          rw [maybeStoreData_success force env ms hne hth hst hbw hsw]
          simp
        | err msg =>
          by_cases hcap : strContains msg capacityErrorMsg = true
          · rw [maybeStoreData_stateCap force env ms msg hne hth hst hbw hsw hcap]
            simp
          · rw [maybeStoreData_stateErr force env ms msg hne hth hst hbw hsw
              (by simpa using hcap)]
            cases force <;> simp
    exact ⟨fun hcon => absurd hcon hout, fun hcon => absurd hcon hg⟩

/-! ### Concrete fixtures -/

/-- A sample page record. -/
def sampleRecord : PageRecord := { url := "https://subscene.com/browse" }

/-- A flush environment where both storage writes succeed and no record is
appended concurrently. -/
def quietOkEnv : FlushEnv :=
  { batchWrite := .ok, appendedDuringBatchWrite := [],
    stateWrite := .ok, appendedDuringStateWrite := [] }

/-- One buffered record, threshold met, no flush in progress. -/
def readyState : MachineState :=
  { state := DEFAULT_STATE, finishedPages := [sampleRecord], isStoring := false,
    storePagesInterval := 1, batches := [], storedState := none }

/-- One buffered record while another flush is in progress. -/
def busyState : MachineState :=
  { state := DEFAULT_STATE, finishedPages := [sampleRecord], isStoring := true,
    storePagesInterval := 1, batches := [], storedState := none }

/-- One buffered record, below the default threshold, no flush in progress. -/
def belowThresholdState : MachineState :=
  { state := DEFAULT_STATE, finishedPages := [sampleRecord], isStoring := false,
    storePagesInterval := 50, batches := [], storedState := none }

/-- A flush environment whose batch write fails with the capacity error. -/
def capacityEnv : FlushEnv :=
  { batchWrite := .err capacityErrorMsg, appendedDuringBatchWrite := [],
    stateWrite := .ok, appendedDuringStateWrite := [] }

/-- A flush environment whose batch write fails with a transient error. -/
def batchFailEnv : FlushEnv :=
  { batchWrite := .err "ECONNRESET", appendedDuringBatchWrite := [],
    stateWrite := .ok, appendedDuringStateWrite := [] }

/-- A flush environment whose batch write succeeds but whose `STATE` write
fails with a transient error. -/
def stateWriteFailEnv : FlushEnv :=
  { batchWrite := .ok, appendedDuringBatchWrite := [],
    stateWrite := .err "ECONNRESET", appendedDuringStateWrite := [] }

/-! ### Claim theorems -/

/-- C3: every flush that performs a storage write follows the specified step
order — on a successful flush the batch written is exactly the snapshot of
the prior buffer under the key derived from `storeCount`, exactly the
snapshotted prefix is removed (records appended during the writes remain),
`pageCount` grows by the snapshot size, `storeCount` by one, and the state
is persisted afterwards; the counter invariant (`pageCount` = total records
across written batches, `storeCount` = number of batches) is preserved by
any sequence of events, and both counters are non-decreasing across any
`maybeStoreData` call. -/
theorem flush_step_order (force : Bool) (env : FlushEnv) (ms : MachineState)
    (hne : ms.finishedPages.length ≠ 0)
    (hth : force = true ∨ ms.storePagesInterval ≤ ms.finishedPages.length)
    (hg : ms.isStoring = false)
    (hbw : env.batchWrite = .ok) (hsw : env.stateWrite = .ok) :
    (maybeStoreData force env ms).2 = .stored ∧
    (maybeStoreData force env ms).1.batches =
      ms.batches ++ [(pagesKey (ms.state.storeCount + 1), ms.finishedPages)] ∧
    (maybeStoreData force env ms).1.finishedPages =
      env.appendedDuringBatchWrite ++ env.appendedDuringStateWrite ∧
    (maybeStoreData force env ms).1.state.pageCount =
      ms.state.pageCount + ms.finishedPages.length ∧
    (maybeStoreData force env ms).1.state.storeCount = ms.state.storeCount + 1 ∧
    (maybeStoreData force env ms).1.storedState =
      some ((maybeStoreData force env ms).1.state) ∧
    (counterInv ms → counterInv (maybeStoreData force env ms).1) ∧
    (∀ es ms0, counterInv ms0 ∧ storedInv ms0 →
      counterInv (runEvents ms0 es) ∧ storedInv (runEvents ms0 es)) ∧
    (∀ f e m, m.state.pageCount ≤ (maybeStoreData f e m).1.state.pageCount ∧
              m.state.storeCount ≤ (maybeStoreData f e m).1.state.storeCount) := by
  rw [maybeStoreData_success force env ms hne hth hg hbw hsw]
  refine ⟨rfl, rfl, rfl, rfl, rfl, rfl, ?_, ?_, ?_⟩
  · intro h
    simp [counterInv, h.1, h.2]
  · exact fun es ms0 h => inv_runEvents es ms0 h
  · exact fun f e m => maybeStoreData_mono f e m

/-- Witness for C3: a concrete successful flush of a one-record buffer. -/
theorem flush_step_order_witness :
    (maybeStoreData false quietOkEnv readyState).2 = .stored ∧
    (maybeStoreData false quietOkEnv readyState).1.batches =
      readyState.batches ++
        [(pagesKey (readyState.state.storeCount + 1), readyState.finishedPages)] ∧
    (maybeStoreData false quietOkEnv readyState).1.finishedPages = [] ∧
    (maybeStoreData false quietOkEnv readyState).1.state.pageCount =
      readyState.state.pageCount + readyState.finishedPages.length ∧
    (maybeStoreData false quietOkEnv readyState).1.state.storeCount =
      readyState.state.storeCount + 1 := by
  have h := flush_step_order false quietOkEnv readyState (by decide)
    (Or.inr (by decide)) rfl rfl rfl
  exact ⟨h.1, h.2.1, h.2.2.1, h.2.2.2.1, h.2.2.2.2.1⟩

/-- C4 counterexample: a forced flush invoked while a flush is in progress
is dropped as a plain no-op — the buffer is non-empty yet nothing is
written, nothing waits and nothing retries, so the buffer is not drained. -/
theorem forced_flush_dropped :
    busyState.finishedPages ≠ [] ∧
    maybeStoreData true quietOkEnv busyState = (busyState, .noWrite) ∧
    (maybeStoreData true quietOkEnv busyState).1.finishedPages ≠ [] ∧
    (maybeStoreData true quietOkEnv busyState).1.batches = [] := by decide

/-- C4 amended: a forced flush bypasses the flush threshold, but when a
flush is already in progress it is dropped outright (a no-op, neither
waited for nor retried); when no flush is in progress and the writes
succeed it snapshots and writes the entire buffer, leaving only records
appended during the writes (so an undisturbed buffer drains to empty), and
preserves the records-across-batches accounting. -/
theorem forced_flush_behavior (env : FlushEnv) (ms : MachineState)
    (hne : ms.finishedPages.length ≠ 0) :
    (ms.isStoring = true → maybeStoreData true env ms = (ms, .noWrite)) ∧
    (ms.isStoring = false → env.batchWrite = .ok → env.stateWrite = .ok →
      (maybeStoreData true env ms).2 = .stored ∧
      (maybeStoreData true env ms).1.batches =
        ms.batches ++ [(pagesKey (ms.state.storeCount + 1), ms.finishedPages)] ∧
      (maybeStoreData true env ms).1.finishedPages =
        env.appendedDuringBatchWrite ++ env.appendedDuringStateWrite ∧
      (env.appendedDuringBatchWrite = [] → env.appendedDuringStateWrite = [] →
        (maybeStoreData true env ms).1.finishedPages = []) ∧
      (counterInv ms → counterInv (maybeStoreData true env ms).1)) := by
  constructor
  · exact fun h => maybeStoreData_of_isStoring true env ms h
  · intro hg hbw hsw
    rw [maybeStoreData_success true env ms hne (Or.inl rfl) hg hbw hsw]
    refine ⟨rfl, rfl, rfl, ?_, ?_⟩
    · intro h1 h2
      simp [h1, h2]
    · intro h
      simp [counterInv, h.1, h.2]

/-- Witness for C4 amended: a forced flush of a one-record buffer below the
default threshold of 50 still writes and fully drains the buffer. -/
theorem forced_flush_behavior_witness :
    (maybeStoreData true quietOkEnv belowThresholdState).2 = .stored ∧
    (maybeStoreData true quietOkEnv belowThresholdState).1.finishedPages = [] := by
  have h := (forced_flush_behavior quietOkEnv belowThresholdState (by decide)).2
    rfl rfl rfl
  exact ⟨h.1, h.2.2.2.1 rfl rfl⟩

/-- C5: a non-forced flush reaches the storage write if and only if the
buffer is non-empty, holds at least `storePagesInterval` records, and no
flush is in progress; a skipped (non-forced) flush is a strict no-op on the
whole machine state, and while a flush is in progress every further trigger
(forced or not) is a no-op rather than a queued duplicate. -/
theorem flush_policy_iff (env : FlushEnv) (ms : MachineState) :
    ((maybeStoreData false env ms).2 ≠ .noWrite ↔
      (ms.finishedPages.length ≠ 0 ∧
       ms.storePagesInterval ≤ ms.finishedPages.length ∧
       ms.isStoring = false)) ∧
    ((maybeStoreData false env ms).2 = .noWrite →
      maybeStoreData false env ms = (ms, .noWrite)) ∧
    (∀ force, ms.isStoring = true → maybeStoreData force env ms = (ms, .noWrite)) := by
  refine ⟨?_, ?_, fun force h => maybeStoreData_of_isStoring force env ms h⟩
  · rw [Ne, maybeStoreData_noWrite_iff false env ms]
    constructor
    · intro hn
      refine ⟨fun hc => hn (Or.inl hc), ?_, ?_⟩
      · by_contra hlt
        exact hn (Or.inr (Or.inl ⟨rfl, not_le.mp hlt⟩))
      · by_contra hb
        exact hn (Or.inr (Or.inr (by revert hb; cases ms.isStoring <;> simp)))
    · rintro ⟨h1, h2, h3⟩ (hc | ⟨-, hc⟩ | hc)
      · exact h1 hc
      · exact absurd hc (not_lt.mpr h2)
      · rw [h3] at hc
        cases hc
  · intro h2
    exact maybeStoreData_guard false env ms ((maybeStoreData_noWrite_iff false env ms).mp h2)

/-- Witness for C5: a one-record buffer below the threshold of 50 triggers
no write and the whole machine state is untouched. -/
theorem flush_policy_iff_witness :
    maybeStoreData false quietOkEnv belowThresholdState =
      (belowThresholdState, .noWrite) :=
  (flush_policy_iff quietOkEnv belowThresholdState).2.1 (by decide)

/-- C6: when any flush that reaches the storage writes encounters a
storage-capacity error (the error message contains
`The POST payload is too large`) — on the batch write or on the `STATE`
write — the process terminates immediately via `process.exit(1)`, a
non-zero exit status; termination means no further flush attempt runs. -/
theorem capacity_error_exits (force : Bool) (env : FlushEnv) (ms : MachineState)
    (msg : String)
    (hne : ms.finishedPages.length ≠ 0)
    (hth : force = true ∨ ms.storePagesInterval ≤ ms.finishedPages.length)
    (hg : ms.isStoring = false)
    (hcap : strContains msg capacityErrorMsg = true)
    (hw : env.batchWrite = .err msg ∨
          (env.batchWrite = .ok ∧ env.stateWrite = .err msg)) :
    (maybeStoreData force env ms).2 = .exited 1 ∧ (1 : Nat) ≠ 0 := by
  refine ⟨?_, by decide⟩
  rcases hw with hbw | ⟨hbw, hsw⟩
  · rw [maybeStoreData_batchCap force env ms msg hne hth hg hbw hcap]
  · rw [maybeStoreData_stateCap force env ms msg hne hth hg hbw hsw hcap]

/-- Witness for C6: a forced flush whose batch write fails with the
capacity message exits with status 1. -/
theorem capacity_error_exits_witness :
    (maybeStoreData true capacityEnv readyState).2 = .exited 1 ∧ (1 : Nat) ≠ 0 :=
  capacity_error_exits true capacityEnv readyState capacityErrorMsg (by decide)
    (Or.inl rfl) rfl (by decide) (Or.inl rfl)

/-- C7 counterexample: in a non-forced flush whose batch write succeeds and
whose `STATE` write then fails with a transient error, the failure is
logged and swallowed (`swallowed`, the process continues with the flag
cleared) rather than treated as fatal. -/
theorem counter_write_failure_not_fatal :
    (maybeStoreData false stateWriteFailEnv readyState).2 = .swallowed "ECONNRESET" ∧
    (maybeStoreData false stateWriteFailEnv readyState).1.isStoring = false ∧
    (maybeStoreData false stateWriteFailEnv readyState).1.storedState = none := by
  decide

/-- C7 amended: the batch write always precedes the counter update —
`STATE` is re-persisted only after the batch write succeeds, and when the
batch write fails the stored state, the in-memory counters and the batches
are all untouched; a `STATE`-write failure after a successful batch write
is propagated as fatal (`thrown`) only during a forced flush, while a
non-forced flush logs and swallows it, keeping the already-updated
in-memory counters so a later successful flush re-persists a consistent
state; moreover the persisted state always corresponds to a prefix of the
written batches. -/
theorem counter_update_ordering (force : Bool) (env : FlushEnv) (ms : MachineState)
    (msg : String)
    (hne : ms.finishedPages.length ≠ 0)
    (hth : force = true ∨ ms.storePagesInterval ≤ ms.finishedPages.length)
    (hg : ms.isStoring = false) :
    (env.batchWrite = .err msg → strContains msg capacityErrorMsg = false →
      (maybeStoreData force env ms).1.storedState = ms.storedState ∧
      (maybeStoreData force env ms).1.state = ms.state ∧
      (maybeStoreData force env ms).1.batches = ms.batches) ∧
    (env.batchWrite = .ok → env.stateWrite = .ok →
      (maybeStoreData force env ms).1.storedState =
        some ((maybeStoreData force env ms).1.state) ∧
      (maybeStoreData force env ms).1.batches =
        ms.batches ++ [(pagesKey (ms.state.storeCount + 1), ms.finishedPages)]) ∧
    (env.batchWrite = .ok → env.stateWrite = .err msg →
      strContains msg capacityErrorMsg = false →
      (maybeStoreData force env ms).1.storedState = ms.storedState ∧
      (maybeStoreData force env ms).1.state.pageCount =
        ms.state.pageCount + ms.finishedPages.length ∧
      (maybeStoreData force env ms).1.state.storeCount = ms.state.storeCount + 1 ∧
      (maybeStoreData force env ms).2 =
        (if force then FlushOutcome.thrown msg else FlushOutcome.swallowed msg)) ∧
    (∀ es ms0, counterInv ms0 ∧ storedInv ms0 → storedInv (runEvents ms0 es)) := by
  refine ⟨?_, ?_, ?_, fun es ms0 h => (inv_runEvents es ms0 h).2⟩
  · intro hbw hcap
    rw [maybeStoreData_batchErr force env ms msg hne hth hg hbw hcap]
    exact ⟨rfl, rfl, rfl⟩
  · intro hbw hsw
    rw [maybeStoreData_success force env ms hne hth hg hbw hsw]
    exact ⟨rfl, rfl⟩
  · intro hbw hsw hcap
    rw [maybeStoreData_stateErr force env ms msg hne hth hg hbw hsw hcap]
    exact ⟨rfl, rfl, rfl, rfl⟩

/-- Witness for C7 amended: in a forced flush the `STATE`-write failure is
re-thrown, and no `STATE` value is persisted. -/
theorem counter_update_ordering_witness :
    (maybeStoreData true stateWriteFailEnv readyState).1.storedState = none ∧
    (maybeStoreData true stateWriteFailEnv readyState).2 = .thrown "ECONNRESET" := by
  have h := (counter_update_ordering true stateWriteFailEnv readyState "ECONNRESET"
    (by decide) (Or.inl rfl) rfl).2.2.1 rfl rfl (by decide)
  exact ⟨h.1, by simpa using h.2.2.2⟩

/-- C10: when the batch write fails with a non-capacity error, the buffer
keeps the snapshotted prefix (plus any concurrently appended records), the
in-memory counters, the written batches and the stored state are exactly
as before the attempt, and the flush-in-progress flag is cleared; in
general, starting from an idle flag, every `maybeStoreData` path that does
not terminate the process leaves the flag cleared, so future triggers are
never blocked. -/
theorem failed_flush_preserves (force : Bool) (env : FlushEnv) (ms : MachineState)
    (msg : String)
    (hne : ms.finishedPages.length ≠ 0)
    (hth : force = true ∨ ms.storePagesInterval ≤ ms.finishedPages.length)
    (hg : ms.isStoring = false)
    (hbw : env.batchWrite = .err msg)
    (hcap : strContains msg capacityErrorMsg = false) :
    (maybeStoreData force env ms).1.finishedPages =
      ms.finishedPages ++ env.appendedDuringBatchWrite ∧
    (maybeStoreData force env ms).1.state = ms.state ∧
    (maybeStoreData force env ms).1.batches = ms.batches ∧
    (maybeStoreData force env ms).1.storedState = ms.storedState ∧
    (maybeStoreData force env ms).1.isStoring = false ∧
    (∀ f e m, m.isStoring = false →
      (∀ c, (maybeStoreData f e m).2 ≠ .exited c) →
      (maybeStoreData f e m).1.isStoring = false) := by
  rw [maybeStoreData_batchErr force env ms msg hne hth hg hbw hcap]
  refine ⟨rfl, rfl, rfl, rfl, rfl, ?_⟩
  intro f e m hm hnex
  rcases maybeStoreData_total_cases f e m with heq | ⟨b, o, heq, hbo⟩ |
      ⟨b, st, o, heq, hbo, -⟩ <;> rw [heq]
  · exact hm
  · cases b with
    | false => rfl
    | true =>
      exfalso
      refine hnex 1 ?_
      rw [heq, hbo rfl]
  · cases b with
    | false => rfl
    | true =>
      exfalso
      refine hnex 1 ?_
      rw [heq, hbo rfl]

/-- Witness for C10: a concrete failed batch write leaves the one-record
buffer, the counters and the store untouched, with the flag cleared. -/
theorem failed_flush_preserves_witness :
    (maybeStoreData false batchFailEnv readyState).1.finishedPages =
      readyState.finishedPages ++ batchFailEnv.appendedDuringBatchWrite ∧
    (maybeStoreData false batchFailEnv readyState).1.state = readyState.state ∧
    (maybeStoreData false batchFailEnv readyState).1.batches = readyState.batches ∧
    (maybeStoreData false batchFailEnv readyState).1.isStoring = false := by
  have h := failed_flush_preserves false batchFailEnv readyState "ECONNRESET"
    (by decide) (Or.inr (by decide)) rfl rfl (by decide)
  exact ⟨h.1, h.2.1, h.2.2.1, h.2.2.2.2.1⟩

/-- C2 counterexample: an invocation of `workerFunc` whose fetch fails
appends no `PageRecord` at all to the buffer (the error is recorded only on
the discarded local `page` object), and even a successful invocation that
finds no subtitle payload appends nothing — so "every invocation appends
exactly one PageRecord" fails. -/
theorem failed_fetch_appends_nothing :
    (workerFunc SUBSCENE_START (.earlyFail "net::ERR_CONNECTION_FAILED")
      [SUBSCENE_START] []).finishedPages = [] ∧
    (workerFunc SUBSCENE_START (.earlyFail "net::ERR_CONNECTION_FAILED")
      [SUBSCENE_START] []).page.errorInfo = some "net::ERR_CONNECTION_FAILED" ∧
    (workerFunc SUBSCENE_START (.noSubtitle SUBSCENE_START [])
      [SUBSCENE_START] []).finishedPages = [] := by
  decide

/-- C2 amended: an invocation of the worker routine appends exactly one
`PageRecord` if and only if the fetch succeeded, a subtitle payload was
found and its download succeeded; every other invocation — including a
failed fetch, which records the error detail on the local record and adds
zero links — appends nothing; links discovered before a later failure are
still appended to the frontier, and every invocation then invokes the
flush-policy check on the resulting buffer. -/
theorem worker_append_behavior (url : String) (wenv : WorkerEnv)
    (urls : List String) (fp : List PageRecord) :
    (workerFunc url wenv urls fp).finishedPages.length =
      fp.length + (if producesRecord wenv then 1 else 0) ∧
    (producesRecord wenv = false → (workerFunc url wenv urls fp).finishedPages = fp) ∧
    (∀ msg, wenv = .earlyFail msg →
      (workerFunc url wenv urls fp).page.errorInfo = some msg ∧
      (workerFunc url wenv urls fp).urls = urls) ∧
    (workerFunc url wenv urls fp).urls = urls ++ newURLsOf wenv ∧
    (∀ fenv ms, (workerStep url wenv fenv urls ms).2 =
      maybeStoreData false fenv
        { ms with finishedPages := (workerFunc url wenv urls ms.finishedPages).finishedPages }) := by
  refine ⟨?_, ?_, ?_, ?_, fun fenv ms => rfl⟩
  · cases wenv <;> simp [workerFunc, producesRecord]
  · intro h
    cases wenv <;> simp_all [workerFunc, producesRecord]
  · intro msg hmsg
    subst hmsg
    exact ⟨rfl, by simp [workerFunc]⟩
  · cases wenv <;> simp [workerFunc, newURLsOf]

/-- Witness for C2 amended: a concrete failed fetch records the error and
discovers no link. -/
theorem worker_append_behavior_witness :
    (workerFunc "https://subscene.com/browse" (.earlyFail "timeout")
      [] []).page.errorInfo = some "timeout" ∧
    (workerFunc "https://subscene.com/browse" (.earlyFail "timeout")
      [] []).urls = [] :=
  (worker_append_behavior "https://subscene.com/browse" (.earlyFail "timeout")
    [] []).2.2.1 "timeout" rfl

/-- C1: the claim fails on the code — a worker that completes and discovers
a new URL appends it to the frontier (`urls` array) but never enqueues it:
`q.push` runs only in the startup `forEach`, so the set of URLs processed
by workers is always exactly the startup queue.  Concretely, a crawl seeded
with the start page whose worker discovers one link processes only the
seed; the discovered link sits in the final frontier and is never
dispatched.  The general part proves the processed list always equals the
initial queue, whatever links workers discover. -/
theorem discovered_urls_never_dispatched :
    ((runQueue
        (fun u => if u = SUBSCENE_START
          then .noSubtitle SUBSCENE_START ["https://subscene.com/subtitles/x"]
          else .noSubtitle u [])
        [SUBSCENE_START]
        (dispatchedUrls [SUBSCENE_START] (loadState none))).2 =
      [SUBSCENE_START] ∧
     (runQueue
        (fun u => if u = SUBSCENE_START
          then .noSubtitle SUBSCENE_START ["https://subscene.com/subtitles/x"]
          else .noSubtitle u [])
        [SUBSCENE_START]
        (dispatchedUrls [SUBSCENE_START] (loadState none))).1 =
      [SUBSCENE_START, "https://subscene.com/subtitles/x"] ∧
     "https://subscene.com/subtitles/x" ∉
      (runQueue
        (fun u => if u = SUBSCENE_START
          then .noSubtitle SUBSCENE_START ["https://subscene.com/subtitles/x"]
          else .noSubtitle u [])
        [SUBSCENE_START]
        (dispatchedUrls [SUBSCENE_START] (loadState none))).2) ∧
    (∀ envs frontier queue, (runQueue envs frontier queue).2 = queue) := by
  constructor
  · decide
  · intro envs frontier queue
    induction queue generalizing frontier with
    | nil => rfl
    | cons u rest ih => simp [runQueue, ih]

/-- C8: on startup the stored state defaults to zero counters when absent,
and the URLs pushed onto the queue are exactly the seed list from index
`pageCount` onward — empty when `pageCount` is at least the seed count. -/
theorem resume_dispatch (seeds : List String) (st : CrawlState) :
    loadState none = DEFAULT_STATE ∧
    DEFAULT_STATE.storeCount = 0 ∧
    DEFAULT_STATE.pageCount = 0 ∧
    loadState (some st) = st ∧
    dispatchedUrls seeds st = seeds.drop st.pageCount ∧
    (seeds.length ≤ st.pageCount → dispatchedUrls seeds st = []) := by
  have hmain : dispatchedUrls seeds st = seeds.drop st.pageCount := by
    unfold dispatchedUrls
    by_cases h : st.pageCount > 0
    · rw [if_pos h]
    · rw [if_neg h]
      have h0 : st.pageCount = 0 := by omega
      rw [h0, List.drop_zero]
  refine ⟨rfl, rfl, rfl, rfl, hmain, ?_⟩
  intro hle
  rw [hmain]
  exact List.drop_eq_nil_of_le hle

/-- Witness for C8: with two seeds and a stored `pageCount` of 5, nothing
is dispatched. -/
theorem resume_dispatch_witness :
    dispatchedUrls ["https://subscene.com/browse", "https://subscene.com/a"]
      { storeCount := 1, pageCount := 5 } = [] :=
  (resume_dispatch ["https://subscene.com/browse", "https://subscene.com/a"]
    { storeCount := 1, pageCount := 5 }).2.2.2.2.2 (by decide)

/-- C9 counterexample: when the `storePagesInterval` input field is absent
the effective flush threshold is 50, not 10 as the claim states. -/
theorem default_interval_not_ten :
    effectiveStorePagesInterval none = 50 ∧
    effectiveStorePagesInterval none ≠ 10 := by decide

/-- C9 amended: when the corresponding input fields are absent or
non-positive, the worker-pool concurrency defaults to 1 and the flush
threshold `storePagesInterval` defaults to 50 (its initial value); positive
inputs are taken as given. -/
theorem config_defaults :
    effectiveConcurrency none = 1 ∧
    (∀ v : Int, v ≤ 0 → effectiveConcurrency (some v) = 1) ∧
    (∀ v : Int, 0 < v → effectiveConcurrency (some v) = v) ∧
    effectiveStorePagesInterval none = initialStorePagesInterval ∧
    initialStorePagesInterval = 50 ∧
    (∀ v : Int, v ≤ 0 → effectiveStorePagesInterval (some v) = 50) ∧
    (∀ v : Int, 0 < v → effectiveStorePagesInterval (some v) = v) := by
  refine ⟨rfl, ?_, ?_, rfl, rfl, ?_, ?_⟩
  · intro v h
    simp [effectiveConcurrency, not_lt.mpr h]
  · intro v h
    simp [effectiveConcurrency, h]
  · intro v h
    simp [effectiveStorePagesInterval, initialStorePagesInterval, not_lt.mpr h]
  · intro v h
    simp [effectiveStorePagesInterval, h]

/-- Witness for C9 amended: a negative concurrency falls back to 1 and a
zero interval falls back to 50. -/
theorem config_defaults_witness :
    effectiveConcurrency (some (-3)) = 1 ∧
    effectiveStorePagesInterval (some 0) = 50 :=
  ⟨config_defaults.2.1 (-3) (by norm_num),
   config_defaults.2.2.2.2.2.1 0 le_rfl⟩

end SubsceneCrawler
